import Mathlib

/-!
Shallow embedding of the EyeMouse content-script controller
(`extension/content/overlay.js`, class `EyeMouseController`) and proofs about
its calibration/tuning state machine, frame pipeline, close disciplines and
targeting/interaction engine.

Modelling conventions:
* DOM elements are records of the attributes the controller reads
  (`tagName`, `onclick`, `role`, computed `cursor`, `isContentEditable`,
  `className`, bounding rectangle); the `eid` field plays the role of
  JavaScript reference identity.
* The browser environment (`document.elementFromPoint`, `document.body`,
  `document.documentElement`, viewport size, scroll offset) is a `Dom` record.
* Outbound `ws.send` calls append to a `sent` log; `alert` calls append to an
  `alerts` log; `element.click()` calls (with their transient visual
  acknowledgment) append to a `clicked` log.
* The two `requestAnimationFrame` loops (`startSendingCalibrationFrames`,
  `startTracking`) are modelled by their single-iteration step functions
  (`calibrationFrameStep`, `trackingFrameStep`), each returning the updated
  state together with the boolean "the loop re-arms itself" — exactly the
  guard the source re-checks every iteration.
* Coordinates and progress values are integers; no claim under study
  depends on fractional coordinate values, and integer arithmetic keeps every
  definition kernel-evaluable on concrete inputs.
-/

/-- Leading-match test on character lists: does `needle` occur at the head of
`hay`? (Helper for the substring test used by the class-name heuristic.) -/
def charsMatchAt (hay needle : List Char) : Bool :=
  match hay, needle with
  | _, [] => true
  | [], _ :: _ => false
  | c :: cs, d :: ds => c == d && charsMatchAt cs ds

/-- Substring occurrence on character lists. -/
def charsHaveSub (hay needle : List Char) : Bool :=
  match hay with
  | [] => charsMatchAt [] needle
  | c :: t => charsMatchAt (c :: t) needle || charsHaveSub t needle

/-- JavaScript `String.includes`: `pat` occurs somewhere in `s`. -/
def strHasSub (s pat : String) : Bool :=
  charsHaveSub s.data pat.data

/-- ASCII lower-casing of one character (`String.toLowerCase` of JavaScript,
restricted to the ASCII range the heuristic vocabulary lives in). -/
def charLower (c : Char) : Char :=
  if 65 ≤ c.toNat ∧ c.toNat ≤ 90 then Char.ofNat (c.toNat + 32) else c

/-- JavaScript `s.toLowerCase()`. -/
def lowerStr (s : String) : String :=
  ⟨s.data.map charLower⟩

/-- JavaScript truthiness of a nullable string attribute value:
`null` and the empty string are falsy. -/
def truthyStr : Option String → Bool
  | none => false
  | some s => s != ""

/-- One normalized calibration point (`{x, y}` in `[0,1]×[0,1]`),
as delivered in `calibration_started.points`. -/
structure CalPoint where
  x : ℤ
  y : ℤ
deriving DecidableEq, Repr

/-- A host-document element, holding exactly the attributes
`isClickable` / `updateHighlight` / `clickElement` read.  `eid` stands in for
JavaScript reference identity (`===`). The rectangle fields are the
viewport-relative `getBoundingClientRect()` values. -/
structure Element where
  eid : Nat
  tagName : String
  hasOnclick : Bool
  onclickAttr : Option String
  roleAttr : Option String
  cursor : String
  isContentEditable : Bool
  className : String
  rectLeft : ℤ
  rectTop : ℤ
  rectWidth : ℤ
  rectHeight : ℤ
deriving DecidableEq, Repr

/-- Browser environment of the content script: element lookup, the two
always-excluded root elements, viewport size and scroll offset. -/
structure Dom where
  elementFromPoint : ℤ → ℤ → Option Element
  body : Element
  documentElement : Element
  innerWidth : ℤ
  innerHeight : ℤ
  scrollX : ℤ
  scrollY : ℤ

/-- WebSocket ready states. -/
inductive WsReady
  | CONNECTING
  | OPEN
  | CLOSING
  | CLOSED
deriving DecidableEq, Repr

/-- Outbound commands of the wire protocol (`ws.send` payload `command`s). -/
inductive Command
  | load_model
  | start_calibration
  | start_tune
  | calibration_frame
  | track_gaze
  | stop
deriving DecidableEq, Repr

/-- One inbound `gaze_update` payload: nullable normalized coordinates plus
the double-blink flag. -/
structure GazeData where
  x : Option ℤ
  y : Option ℤ
  double_blink : Bool
deriving DecidableEq, Repr

/-- Inbound backend events dispatched by `handleBackendMessage`. -/
inductive BackendMsg
  | calibration_started (points : List CalPoint)
  | calibration_face_countdown (progress : ℤ) (message : Option String)
  | calibration_point_start (index : Nat)
  | calibration_pulse (progress : ℤ)
  | calibration_capture (progress : ℤ)
  | calibration_complete (success : Bool) (samples : Nat) (is_tune : Bool)
  | model_loaded (success : Bool)
  | gaze_update (data : GazeData)
  | error (message : String)
deriving Repr

/-- The observable state of an `EyeMouseController` instance:
its fields, the visibility/geometry of its overlay nodes, the persisted
`isActive` storage key, and the logs of its externally visible effects. -/
structure ControllerState where
  isActive : Bool
  isCalibrated : Bool
  ws : Option WsReady
  calibrationPoints : List CalPoint
  currentCalibrationIndex : Nat
  overlayShown : Bool
  cursorShown : Bool
  cursorLeft : ℤ
  cursorTop : ℤ
  highlightShown : Bool
  highlightLeft : ℤ
  highlightTop : ℤ
  highlightWidth : ℤ
  highlightHeight : ℤ
  statusShown : Bool
  currentElement : Option Element
  calibLoopStarted : Bool
  trackLoopStarted : Bool
  storedActive : Bool
  pendingCloseDelay : Option Nat
  sent : List Command
  alerts : List String
  clicked : List Element
deriving DecidableEq, Repr

/-- Embeds `this.ws.send(JSON.stringify(...))`: append to the send log. -/
def wsSend (st : ControllerState) (c : Command) : ControllerState :=
  { st with sent := st.sent ++ [c] }

/-- Truthy-and-allow-listed test for the ARIA `role` attribute:
`role && ['button','link','menuitem','tab','checkbox','radio'].includes(role)`. -/
def roleTruthyAllowed (roleAttr : Option String) : Bool :=
  match roleAttr with
  | some role => role != "" && ["button", "link", "menuitem", "tab", "checkbox", "radio"].contains role
  | none => false

/-- The interactive-tag allow-list of `isClickable`. -/
def clickableTags : List String :=
  ["A", "BUTTON", "INPUT", "SELECT", "TEXTAREA", "LABEL"]

/-- The class-name heuristic of `isClickable`: case-insensitive substring
match against the fixed vocabulary. -/
def classSignal (e : Element) : Bool :=
  let cn := lowerStr e.className
  strHasSub cn "btn" || strHasSub cn "button" || strHasSub cn "link" || strHasSub cn "clickable"

/-- Embeds `isClickable(element)` for a non-null element (overlay.js:606-649):
first match wins over the six signals. -/
def isClickableEl (e : Element) : Bool :=
  if clickableTags.contains e.tagName then true
  else if e.hasOnclick || truthyStr e.onclickAttr then true
  else if roleTruthyAllowed e.roleAttr then true
  else if e.cursor == "pointer" then true
  else if e.isContentEditable then true
  else if classSignal e then true
  else false

/-- Embeds `isClickable(element)` including the null guard. -/
def isClickable : Option Element → Bool
  | none => false
  | some e => isClickableEl e

/-- Disjunction of the six clickability signals (used to phrase
"an element exhibiting none of the listed signals"). -/
def hasAnySignal (e : Element) : Bool :=
  clickableTags.contains e.tagName ||
  (e.hasOnclick || truthyStr e.onclickAttr) ||
  roleTruthyAllowed e.roleAttr ||
  e.cursor == "pointer" ||
  e.isContentEditable ||
  classSignal e

/-- Embeds `updateHighlight(element)` (overlay.js:651-663): hide for null, body and
the document root; otherwise show the box at the bounding rectangle
translated by the scroll offset. Never touches `currentElement`. -/
def updateHighlight (dom : Dom) (st : ControllerState) (element : Option Element) :
    ControllerState :=
  match element with
  | none => { st with highlightShown := false }
  | some e =>
    if e = dom.body ∨ e = dom.documentElement then
      { st with highlightShown := false }
    else
      { st with
          highlightShown := true,
          highlightLeft := e.rectLeft + dom.scrollX,
          highlightTop := e.rectTop + dom.scrollY,
          highlightWidth := e.rectWidth,
          highlightHeight := e.rectHeight }

/-- Embeds `clickElement(element)` (overlay.js:665-677): transient background tint
(set and reverted after 200 ms, no lasting state) plus `element.click()`,
logged in `clicked`. -/
def clickElement (st : ControllerState) (element : Element) : ControllerState :=
  { st with clicked := st.clicked ++ [element] }

/-- The coordinate-guarded first half of `updateGaze` (overlay.js:577-598):
scale the normalized coordinates, move the virtual cursor, resolve the
element under gaze and re-evaluate snapping when it changed. -/
def gazeTargetPhase (dom : Dom) (st : ControllerState) (data : GazeData) :
    ControllerState :=
  match data.x, data.y with
  | some gx, some gy =>
    let x := gx * dom.innerWidth
    let y := gy * dom.innerHeight
    let st1 := { st with cursorLeft := x - 10, cursorTop := y - 10 }
    match dom.elementFromPoint x y with
    | some element =>
      if some element ≠ st1.currentElement then
        if isClickableEl element then
          let st2 := updateHighlight dom st1 (some element)
          { st2 with currentElement := some element }
        else
          { st1 with highlightShown := false, currentElement := none }
      else st1
    | none => st1
  | _, _ => st

/-- The double-blink second half of `updateGaze` (overlay.js:600-604):
`if (data.double_blink && this.currentElement) clickElement(...)`. -/
def blinkPhase (st : ControllerState) (data : GazeData) : ControllerState :=
  match st.currentElement with
  | some el => if data.double_blink then clickElement st el else st
  | none => st

/-- Embeds `updateGaze(data)` (overlay.js:576-604). -/
def updateGaze (dom : Dom) (st : ControllerState) (data : GazeData) :
    ControllerState :=
  blinkPhase (gazeTargetPhase dom st data) data

/-- One iteration of the `sendFrame` loop of `startSendingCalibrationFrames`
(overlay.js:407-426). Returns the new state and whether the loop re-arms
itself via `requestAnimationFrame`. -/
def calibrationFrameStep (st : ControllerState) : ControllerState × Bool :=
  if !st.isActive || st.isCalibrated then (st, false)
  else
    let st1 := if st.ws = some WsReady.OPEN then wsSend st Command.calibration_frame else st
    (st1, true)

/-- One iteration of the `trackLoop` loop of `startTracking`
(overlay.js:555-569). -/
def trackingFrameStep (st : ControllerState) : ControllerState × Bool :=
  if !st.isActive || !st.isCalibrated then (st, false)
  else (wsSend st Command.track_gaze, true)

/-- The calibration-frame stream is live: its loop has been started and its
continue predicate (re-checked every iteration) holds. -/
def calibrationStreamLive (st : ControllerState) : Bool :=
  st.calibLoopStarted && st.isActive && !st.isCalibrated

/-- The tracking stream is live: its loop has been started and its continue
predicate holds. -/
def trackingStreamLive (st : ControllerState) : Bool :=
  st.trackLoopStarted && st.isActive && st.isCalibrated

/-- Embeds `startTracking()` (overlay.js:555-569): arm the tracking loop. -/
def startTracking (st : ControllerState) : ControllerState :=
  { st with trackLoopStarted := true }

/-- Embeds the `startSendingCalibrationFrames()` entry (overlay.js:407-426): arm the
calibration-frame loop. -/
def startSendingCalibrationFrames (st : ControllerState) : ControllerState :=
  { st with calibLoopStarted := true }

/-- Embeds `hideCalibration()` (overlay.js:546-553): hide the calibration overlay
(the `calibrationInterval` it clears is never set anywhere in the source). -/
def hideCalibration (st : ControllerState) : ControllerState :=
  { st with overlayShown := false }

/-- Embeds `startCalibration()` (overlay.js:386-392). -/
def startCalibration (st : ControllerState) : ControllerState :=
  let st1 := { st with
      statusShown := true, overlayShown := true, currentCalibrationIndex := 0 }
  wsSend st1 Command.start_calibration

/-- Embeds `startTune()` (overlay.js:394-405): local guard on `isCalibrated`
(surfaced as an `alert`), otherwise exactly one `start_tune` send. -/
def startTune (st : ControllerState) : ControllerState :=
  if !st.isCalibrated then
    { st with alerts := st.alerts ++ ["Please calibrate first before tuning!"] }
  else
    let st1 := { st with
        statusShown := true, overlayShown := true, currentCalibrationIndex := 0 }
    wsSend st1 Command.start_tune

/-- Embeds `handleBackendMessage(data)` (overlay.js:315-384). -/
def handleBackendMessage (dom : Dom) (st : ControllerState) (msg : BackendMsg) :
    ControllerState :=
  match msg with
  | .calibration_started points =>
    let st1 := { st with
        calibrationPoints := points, statusShown := true, overlayShown := true }
    startSendingCalibrationFrames st1
  | .calibration_face_countdown _ _ => st
  | .calibration_point_start index => { st with currentCalibrationIndex := index }
  | .calibration_pulse _ => st
  | .calibration_capture _ => st
  | .calibration_complete success _ _ =>
    if success then
      let st1 := { st with isCalibrated := true }
      let st2 := hideCalibration st1
      let st3 := { st2 with statusShown := true }
      startTracking st3
    else st
  | .model_loaded success =>
    if success then
      let st1 := { st with isCalibrated := true, statusShown := true }
      startTracking st1
    else startCalibration st
  | .gaze_update data => updateGaze dom st data
  | .error _ => st

/-- Embeds `deactivate(cleanup)` (overlay.js:241-288): flip the flags, persist
inactive, send `stop` only when `cleanup` was requested and the socket is
open, then schedule the deferred `ws.close()` 100 ms later. -/
def deactivate (st : ControllerState) (cleanup : Bool) : ControllerState :=
  if !st.isActive then st
  else
    let st1 := { st with
        isActive := false, cursorShown := false, highlightShown := false,
        statusShown := false, storedActive := false }
    let st2 :=
      if cleanup && st1.ws = some WsReady.OPEN then wsSend st1 Command.stop else st1
    match st2.ws with
    | some _ => { st2 with pendingCloseDelay := some 100 }
    | none => st2

/-- The deferred `setTimeout` body of `deactivate` (overlay.js:272-279):
`if (this.ws) { this.ws.close(); this.ws = null; }`. -/
def runPendingClose (st : ControllerState) : ControllerState :=
  match st.pendingCloseDelay with
  | some _ =>
    match st.ws with
    | some _ => { st with ws := none, pendingCloseDelay := none }
    | none => { st with pendingCloseDelay := none }
  | none => st

/-- The `beforeunload` handler of `init` (overlay.js:70-78): while active,
just `ws.close()` — no `stop` command, no other effect. -/
def softClose (st : ControllerState) : ControllerState :=
  if st.isActive then
    match st.ws with
    | some _ => { st with ws := some WsReady.CLOSING }
    | none => st
  else st

/-! ### Concrete fixtures for witnesses and counterexamples -/

/-- A plain, non-clickable element standing in for the document body. -/
def bodyPlain : Element :=
  { eid := 0, tagName := "BODY", hasOnclick := false, onclickAttr := none,
    roleAttr := none, cursor := "auto", isContentEditable := false,
    className := "", rectLeft := 0, rectTop := 0, rectWidth := 800, rectHeight := 600 }

/-- A body element whose computed cursor is `pointer` (the classifier's
fourth signal fires on it). -/
def bodyPointer : Element :=
  { bodyPlain with cursor := "pointer" }

/-- The document root element. -/
def rootEl : Element :=
  { eid := 99, tagName := "HTML", hasOnclick := false, onclickAttr := none,
    roleAttr := none, cursor := "auto", isContentEditable := false,
    className := "", rectLeft := 0, rectTop := 0, rectWidth := 800, rectHeight := 600 }

/-- An anchor element. -/
def anchorEl : Element :=
  { eid := 1, tagName := "A", hasOnclick := false, onclickAttr := none,
    roleAttr := none, cursor := "auto", isContentEditable := false,
    className := "", rectLeft := 5, rectTop := 7, rectWidth := 40, rectHeight := 12 }

/-- A `div` with `role="button"`. -/
def roleButtonDiv : Element :=
  { eid := 2, tagName := "DIV", hasOnclick := false, onclickAttr := none,
    roleAttr := some "button", cursor := "auto", isContentEditable := false,
    className := "", rectLeft := 0, rectTop := 0, rectWidth := 20, rectHeight := 20 }

/-- A `div` with computed cursor `pointer`. -/
def pointerDiv : Element :=
  { eid := 3, tagName := "DIV", hasOnclick := false, onclickAttr := none,
    roleAttr := none, cursor := "pointer", isContentEditable := false,
    className := "", rectLeft := 0, rectTop := 0, rectWidth := 20, rectHeight := 20 }

/-- A plain `div` exhibiting none of the six clickability signals. -/
def plainDiv : Element :=
  { eid := 4, tagName := "DIV", hasOnclick := false, onclickAttr := none,
    roleAttr := none, cursor := "auto", isContentEditable := false,
    className := "content", rectLeft := 0, rectTop := 0, rectWidth := 20, rectHeight := 20 }

/-- An environment whose element lookup finds nothing. -/
def plainDom : Dom :=
  { elementFromPoint := fun _ _ => none, body := bodyPlain,
    documentElement := rootEl, innerWidth := 100, innerHeight := 100,
    scrollX := 0, scrollY := 0 }

/-- An environment where every gaze point resolves to a body element with
cursor `pointer`. -/
def bodyDom : Dom :=
  { elementFromPoint := fun _ _ => some bodyPointer, body := bodyPointer,
    documentElement := rootEl, innerWidth := 100, innerHeight := 100,
    scrollX := 0, scrollY := 0 }

/-- An active, calibrated controller at rest during tracking. -/
def baseState : ControllerState :=
  { isActive := true, isCalibrated := true, ws := some WsReady.OPEN,
    calibrationPoints := [], currentCalibrationIndex := 0,
    overlayShown := false, cursorShown := true, cursorLeft := 0, cursorTop := 0,
    highlightShown := false, highlightLeft := 0, highlightTop := 0,
    highlightWidth := 0, highlightHeight := 0,
    statusShown := false, currentElement := none,
    calibLoopStarted := false, trackLoopStarted := true,
    storedActive := true, pendingCloseDelay := none,
    sent := [], alerts := [], clicked := [] }

/-- An active controller in the middle of an initial calibration:
uncalibrated, overlay shown, plan received, frame loop armed. -/
def stMidCal : ControllerState :=
  { baseState with
      isCalibrated := false, overlayShown := true,
      calibrationPoints := [{ x := 0, y := 0 }],
      currentCalibrationIndex := 2,
      calibLoopStarted := true, trackLoopStarted := false }

/-- A freshly activated, never-calibrated controller. -/
def stUncal : ControllerState :=
  { baseState with isCalibrated := false, trackLoopStarted := false }

/-- A controller holding a snap target on the anchor element. -/
def stWithTarget : ControllerState :=
  { baseState with currentElement := some anchorEl }

/-- The backend-chosen point plan of a tuning pass (10 points). -/
def tunePoints : List CalPoint :=
  List.replicate 10 { x := 0, y := 1 }

/-- The controller state during a tuning pass, reached from a successful
calibration by `startTune` followed by the backend's `calibration_started`. -/
def stTuning : ControllerState :=
  handleBackendMessage plainDom (startTune baseState)
    (BackendMsg.calibration_started tunePoints)


/-! ### Helper lemmas -/

/-- Lemma: `updateHighlight` touches only the highlight box. -/
theorem updateHighlight_clicked (dom : Dom) (st : ControllerState) (el : Option Element) :
    (updateHighlight dom st el).clicked = st.clicked := by
  unfold updateHighlight
  cases el
  · rfl
  · simp only
    split <;> rfl

/-- A gaze sample with a missing coordinate skips the whole coordinate-guarded
block of `updateGaze`. -/
theorem gazeTargetPhase_nullCoord (dom : Dom) (st : ControllerState) (d : GazeData)
    (h : d.x = none ∨ d.y = none) :
    gazeTargetPhase dom st d = st := by
  obtain ⟨x, y, blink⟩ := d
  cases x <;> cases y <;> first
  | rfl
  | (simp only at h; exact absurd h (by simp))

/-- The targeting phase never activates anything. -/
theorem gazeTargetPhase_clicked (dom : Dom) (st : ControllerState) (d : GazeData) :
    (gazeTargetPhase dom st d).clicked = st.clicked := by
  obtain ⟨x, y, blink⟩ := d
  cases x with
  | none => rfl
  | some gx =>
    cases y with
    | none => rfl
    | some gy =>
      simp only [gazeTargetPhase]
      split
      · split
        · split
          · apply updateHighlight_clicked
          · rfl
        · rfl
      · rfl

/-- The blink phase touches only the click log. -/
theorem blinkPhase_preserves (st : ControllerState) (d : GazeData) :
    (blinkPhase st d).currentElement = st.currentElement ∧
    (blinkPhase st d).highlightShown = st.highlightShown ∧
    (blinkPhase st d).highlightLeft = st.highlightLeft ∧
    (blinkPhase st d).highlightTop = st.highlightTop ∧
    (blinkPhase st d).highlightWidth = st.highlightWidth ∧
    (blinkPhase st d).highlightHeight = st.highlightHeight := by
  unfold blinkPhase clickElement
  cases h : st.currentElement
  · exact ⟨h, rfl, rfl, rfl, rfl, rfl⟩
  · cases d.double_blink <;> first
    | exact ⟨h, rfl, rfl, rfl, rfl, rfl⟩
    | exact ⟨rfl, rfl, rfl, rfl, rfl, rfl⟩

/-! ### Claim theorems -/

/-- C1: every inbound `calibration_complete` event with `success=true` (initial
calibration or tuning pass alike) sets the calibrated flag, hides the
calibration overlay, and starts the tracking stream, while the
calibration-frame stream's continue predicate becomes false (its next
iteration sends nothing and stops). -/
theorem calibration_complete_success_starts_tracking
    (dom : Dom) (st : ControllerState) (samples : Nat) (tune : Bool)
    (hActive : st.isActive = true) :
    (handleBackendMessage dom st (BackendMsg.calibration_complete true samples tune)).isCalibrated = true ∧
    trackingStreamLive (handleBackendMessage dom st (BackendMsg.calibration_complete true samples tune)) = true ∧
    calibrationStreamLive (handleBackendMessage dom st (BackendMsg.calibration_complete true samples tune)) = false ∧
    (calibrationFrameStep (handleBackendMessage dom st (BackendMsg.calibration_complete true samples tune))).2 = false ∧
    (handleBackendMessage dom st (BackendMsg.calibration_complete true samples tune)).overlayShown = false := by
  simp [handleBackendMessage, hideCalibration, startTracking, trackingStreamLive,
        calibrationStreamLive, calibrationFrameStep, hActive]

/-- Witness for C1: a concrete mid-calibration state. -/
theorem calibration_complete_success_starts_tracking_witness :
    stMidCal.isActive = true ∧
    ((handleBackendMessage plainDom stMidCal (BackendMsg.calibration_complete true 40 false)).isCalibrated = true ∧
     trackingStreamLive (handleBackendMessage plainDom stMidCal (BackendMsg.calibration_complete true 40 false)) = true ∧
     calibrationStreamLive (handleBackendMessage plainDom stMidCal (BackendMsg.calibration_complete true 40 false)) = false ∧
     (calibrationFrameStep (handleBackendMessage plainDom stMidCal (BackendMsg.calibration_complete true 40 false))).2 = false ∧
     (handleBackendMessage plainDom stMidCal (BackendMsg.calibration_complete true 40 false)).overlayShown = false) :=
  ⟨rfl, calibration_complete_success_starts_tracking plainDom stMidCal 40 false rfl⟩

/-- C2: `startTune` while not calibrated is refused locally (the
NotCalibratedError guard, surfaced as the user-facing alert) and sends
nothing; while calibrated it sends exactly one `start_tune` command and
enters the tuning pass (overlay up, point index reset, no refusal). -/
theorem startTune_guard (st : ControllerState) :
    (st.isCalibrated = false →
      (startTune st).sent = st.sent ∧
      (startTune st).alerts = st.alerts ++ ["Please calibrate first before tuning!"]) ∧
    (st.isCalibrated = true →
      (startTune st).sent = st.sent ++ [Command.start_tune] ∧
      (startTune st).alerts = st.alerts ∧
      (startTune st).overlayShown = true ∧
      (startTune st).currentCalibrationIndex = 0) := by
  constructor <;> intro h <;> simp [startTune, wsSend, h]

/-- Witness for C2: both branches at concrete states. -/
theorem startTune_guard_witness :
    ((startTune stUncal).sent = stUncal.sent ∧
     (startTune stUncal).alerts = stUncal.alerts ++ ["Please calibrate first before tuning!"]) ∧
    ((startTune baseState).sent = baseState.sent ++ [Command.start_tune] ∧
     (startTune baseState).alerts = baseState.alerts ∧
     (startTune baseState).overlayShown = true ∧
     (startTune baseState).currentCalibrationIndex = 0) :=
  ⟨(startTune_guard stUncal).1 rfl, (startTune_guard baseState).2 rfl⟩

/-- C3: while active with an open socket, the soft close (page navigation)
sends nothing, while the hard close (`deactivate(cleanup=true)`) sends
exactly one `stop` command, leaves the transport open at return, and closes
it only in the deferred grace-delay task scheduled for 100 ms later. -/
theorem close_disciplines (st : ControllerState)
    (hActive : st.isActive = true) (hWs : st.ws = some WsReady.OPEN) :
    (softClose st).sent = st.sent ∧
    (deactivate st true).sent = st.sent ++ [Command.stop] ∧
    (deactivate st true).ws = some WsReady.OPEN ∧
    (deactivate st true).pendingCloseDelay = some 100 ∧
    (runPendingClose (deactivate st true)).ws = none := by
  refine ⟨?_, ?_, ?_, ?_, ?_⟩ <;>
    simp [softClose, deactivate, runPendingClose, wsSend, hActive, hWs]

/-- Witness for C3: the concrete active tracking state. -/
theorem close_disciplines_witness :
    baseState.isActive = true ∧ baseState.ws = some WsReady.OPEN ∧
    ((softClose baseState).sent = baseState.sent ∧
     (deactivate baseState true).sent = baseState.sent ++ [Command.stop] ∧
     (deactivate baseState true).ws = some WsReady.OPEN ∧
     (deactivate baseState true).pendingCloseDelay = some 100 ∧
     (runPendingClose (deactivate baseState true)).ws = none) :=
  ⟨rfl, rfl, close_disciplines baseState rfl rfl⟩

/-- C4 counterexample: at a concrete mid-calibration state (overlay shown,
plan held, point index 2, frame loop live), `calibration_complete` with
`success=false` leaves the state entirely unchanged — the plan, overlay and
point index are NOT cleared and the calibration-frame stream stays live, so
the machine does not return to Idle as the claim states. -/
theorem calibration_abort_counterexample :
    handleBackendMessage plainDom stMidCal (BackendMsg.calibration_complete false 3 false) = stMidCal ∧
    stMidCal.overlayShown = true ∧
    stMidCal.calibrationPoints ≠ [] ∧
    stMidCal.currentCalibrationIndex ≠ 0 ∧
    calibrationStreamLive stMidCal = true := by
  refine ⟨rfl, rfl, ?_, ?_, rfl⟩ <;> decide

/-- C4 amended: an inbound `calibration_complete` with `success=false` is a
strict no-op of the handler — no tracking is started and the session stays
non-calibrated, but no calibration state (plan, overlay, point index) is
cleared either, and the calibration-frame stream is not stopped. -/
theorem calibration_abort_is_noop
    (dom : Dom) (st : ControllerState) (samples : Nat) (tune : Bool) :
    handleBackendMessage dom st (BackendMsg.calibration_complete false samples tune) = st := by
  rfl

/-- C5: the clickability classifier is a union of signals — the
interactive-tag allow-list, a truthy allow-listed ARIA role, and computed
cursor `pointer` each suffice on their own, and an element exhibiting none
of the six signals is classified not clickable. -/
theorem isClickable_signals (e : Element) :
    (clickableTags.contains e.tagName = true → isClickableEl e = true) ∧
    (roleTruthyAllowed e.roleAttr = true → isClickableEl e = true) ∧
    (e.cursor = "pointer" → isClickableEl e = true) ∧
    (hasAnySignal e = false → isClickableEl e = false) := by
  refine ⟨?_, ?_, ?_, ?_⟩ <;> intro h <;>
    simp_all [isClickableEl, hasAnySignal]

/-- Witness for C5: an anchor, a `div` with `role="button"`, a `div` with
cursor `pointer`, and a plain `div` with no signal. -/
theorem isClickable_signals_witness :
    isClickableEl anchorEl = true ∧
    isClickableEl roleButtonDiv = true ∧
    isClickableEl pointerDiv = true ∧
    isClickableEl plainDiv = false :=
  ⟨(isClickable_signals anchorEl).1 (by decide),
   (isClickable_signals roleButtonDiv).2.1 (by decide),
   (isClickable_signals pointerDiv).2.2.1 rfl,
   (isClickable_signals plainDiv).2.2.2 (by decide)⟩

/-- C6 counterexample: with the document body carrying computed cursor
`pointer`, a single gaze sample over it makes the body the snap target and a
double-blink in that same sample activates (clicks) the body — the exclusion
in `updateHighlight` only suppresses the highlight, not snapping or
activation. -/
theorem body_snap_counterexample :
    (updateGaze bodyDom baseState { x := some 1, y := some 1, double_blink := true }).currentElement
      = some bodyDom.body ∧
    (updateGaze bodyDom baseState { x := some 1, y := some 1, double_blink := true }).clicked
      = [bodyDom.body] ∧
    isClickableEl bodyDom.body = true := by
  refine ⟨?_, ?_, ?_⟩ <;> decide

/-- C6 amended: the body/root element is never highlighted —
`updateHighlight` hides the highlight box whenever the resolved element is
the body or the document root — but the body/root is NOT excluded from
becoming the snap target, and a double-blink can activate it when the
classifier accepts it. -/
theorem body_never_highlighted (dom : Dom) (st : ControllerState) (e : Element)
    (h : e = dom.body ∨ e = dom.documentElement) :
    (updateHighlight dom st (some e)).highlightShown = false := by
  unfold updateHighlight
  simp only
  split
  · rfl
  · rename_i hcon
    exact absurd h hcon

/-- Witness for C6's amended theorem: the concrete body element. -/
theorem body_never_highlighted_witness :
    (updateHighlight bodyDom baseState (some bodyPointer)).highlightShown = false :=
  body_never_highlighted bodyDom baseState bodyPointer (Or.inl rfl)

/-- C7: a gaze sample with a null x or y coordinate leaves the snap target
and the highlight geometry/visibility unchanged — the coordinate guard skips
element resolution and highlight update entirely. -/
theorem null_coordinate_leaves_target (dom : Dom) (st : ControllerState) (d : GazeData)
    (h : d.x = none ∨ d.y = none) :
    (updateGaze dom st d).currentElement = st.currentElement ∧
    (updateGaze dom st d).highlightShown = st.highlightShown ∧
    (updateGaze dom st d).highlightLeft = st.highlightLeft ∧
    (updateGaze dom st d).highlightTop = st.highlightTop ∧
    (updateGaze dom st d).highlightWidth = st.highlightWidth ∧
    (updateGaze dom st d).highlightHeight = st.highlightHeight := by
  simp only [updateGaze, gazeTargetPhase_nullCoord dom st d h]
  exact blinkPhase_preserves st d

/-- Witness for C7: a concrete sample with `x=null` processed while a snap
target is held. -/
theorem null_coordinate_leaves_target_witness :
    (updateGaze plainDom stWithTarget { x := none, y := some 1, double_blink := false }).currentElement = stWithTarget.currentElement ∧
    (updateGaze plainDom stWithTarget { x := none, y := some 1, double_blink := false }).highlightShown = stWithTarget.highlightShown ∧
    (updateGaze plainDom stWithTarget { x := none, y := some 1, double_blink := false }).highlightLeft = stWithTarget.highlightLeft ∧
    (updateGaze plainDom stWithTarget { x := none, y := some 1, double_blink := false }).highlightTop = stWithTarget.highlightTop ∧
    (updateGaze plainDom stWithTarget { x := none, y := some 1, double_blink := false }).highlightWidth = stWithTarget.highlightWidth ∧
    (updateGaze plainDom stWithTarget { x := none, y := some 1, double_blink := false }).highlightHeight = stWithTarget.highlightHeight :=
  null_coordinate_leaves_target plainDom stWithTarget _ (Or.inl rfl)

/-- C8 counterexample: `stTuning` is the state reached by `startTune` from a
successfully calibrated session followed by the backend's
`calibration_started` for the 10-point tuning plan. The machine is in its
calibration states (overlay up, frame loop just armed), yet the
calibration-frame loop's very first iteration sends nothing and refuses to
re-arm, because the `isCalibrated` guard is already true during tuning — so
calibration-mode frames are NOT streamed during a tuning pass. -/
theorem tuning_frames_counterexample :
    stTuning.isActive = true ∧
    stTuning.isCalibrated = true ∧
    stTuning.calibLoopStarted = true ∧
    stTuning.overlayShown = true ∧
    calibrationFrameStep stTuning = (stTuning, false) :=
  ⟨rfl, rfl, rfl, rfl, rfl⟩

/-- C8 amended: during an initial calibration (active, not yet calibrated,
socket open) each frame-loop iteration sends exactly one calibration-mode
frame and re-arms; as soon as the calibrated flag is true — set on
successful completion, or already true throughout a tuning pass — the loop
iteration sends nothing and stops. -/
theorem calibration_frame_loop_guard (st : ControllerState) :
    (st.isActive = true → st.isCalibrated = false → st.ws = some WsReady.OPEN →
      calibrationFrameStep st = ({ st with sent := st.sent ++ [Command.calibration_frame] }, true)) ∧
    (st.isCalibrated = true →
      calibrationFrameStep st = (st, false)) := by
  constructor
  · intro h1 h2 h3
    simp [calibrationFrameStep, wsSend, h1, h2, h3]
  · intro h
    simp [calibrationFrameStep, h]

/-- Witness for C8's amended theorem: both branches at concrete states. -/
theorem calibration_frame_loop_guard_witness :
    (calibrationFrameStep stMidCal = ({ stMidCal with sent := stMidCal.sent ++ [Command.calibration_frame] }, true)) ∧
    (calibrationFrameStep baseState = (baseState, false)) :=
  ⟨(calibration_frame_loop_guard stMidCal).1 rfl rfl rfl,
   (calibration_frame_loop_guard baseState).2 rfl⟩

/-- C9: when no snap target exists at the double-blink check (the sample's
own targeting phase resolved none), processing the sample activates
nothing — the click log is unchanged and no target appears. -/
theorem blink_without_target_noop (dom : Dom) (st : ControllerState) (d : GazeData)
    (h : (gazeTargetPhase dom st d).currentElement = none) :
    (updateGaze dom st d).clicked = st.clicked ∧
    (updateGaze dom st d).currentElement = none := by
  constructor
  · simp only [updateGaze, blinkPhase, h]
    exact gazeTargetPhase_clicked dom st d
  · simp only [updateGaze]
    rw [(blinkPhase_preserves (gazeTargetPhase dom st d) d).1, h]

/-- Witness for C9: a double-blink sample with null coordinates processed
while no snap target is held. -/
theorem blink_without_target_noop_witness :
    (updateGaze plainDom baseState { x := none, y := none, double_blink := true }).clicked = baseState.clicked ∧
    (updateGaze plainDom baseState { x := none, y := none, double_blink := true }).currentElement = none :=
  blink_without_target_noop plainDom baseState _ rfl

/-- C10: a sample with `double_blink=true` and a held snap target activates
the target even when a coordinate is null — the blink branch runs
independently of the coordinate guard, clicking the previously snapped
element. -/
theorem blink_with_target_null_coords_clicks (dom : Dom) (st : ControllerState)
    (d : GazeData) (e : Element)
    (hel : st.currentElement = some e) (hblink : d.double_blink = true)
    (hnull : d.x = none ∨ d.y = none) :
    (updateGaze dom st d).clicked = st.clicked ++ [e] ∧
    (updateGaze dom st d).currentElement = some e := by
  simp only [updateGaze, gazeTargetPhase_nullCoord dom st d hnull, blinkPhase,
             hel, hblink, clickElement]
  simp [hel]

/-- Witness for C10: a null-x double-blink sample while the anchor element is
snapped. -/
theorem blink_with_target_null_coords_clicks_witness :
    (updateGaze plainDom stWithTarget { x := none, y := some 1, double_blink := true }).clicked
      = stWithTarget.clicked ++ [anchorEl] ∧
    (updateGaze plainDom stWithTarget { x := none, y := some 1, double_blink := true }).currentElement
      = some anchorEl :=
  blink_with_target_null_coords_clicks plainDom stWithTarget _ anchorEl rfl rfl (Or.inl rfl)
